import Mathlib

/-!
Verification of the Turmola-Server job orchestration core.

This file shallowly embeds the Python operations the specification talks
about (job status updates, cancellation, failover migration, admission at
submission, retry backoff, download-strategy selection, health-monitor
recovery and cluster-status queries) as executable Lean definitions over
explicit state, and proves or refutes the specified properties.

Conventions:
* The Redis / SQL stores are modelled as association lists
  `List (String × _)` with a first-match lookup, mirroring key-value
  semantics; `setAssoc` overwrites, `eraseAssoc` deletes.
* Python string statuses are kept as strings, so the embedded code is a
  line-by-line transcription of the source (`app/services/*.py`,
  `app/api/*.py`).
* Time stamps are abstract `Nat`s (the code only ever writes
  `datetime.utcnow()` into them, never branches on their value in the
  fragments modelled here).
-/

/-- First-match lookup in an association list (Redis `GET key` /
SQL `filter(...".first()"). -/
def lookupA {β : Type} : List (String × β) → String → Option β
  | [], _ => none
  | (k, v) :: rest, key => if k = key then some v else lookupA rest key

/-- Overwrite (or insert) the value at a key (Redis `SET key v`). -/
def setAssoc {β : Type} : List (String × β) → String → β → List (String × β)
  | [], key, v => [(key, v)]
  | (k, w) :: rest, key, v =>
      if k = key then (key, v) :: rest else (k, w) :: setAssoc rest key v

/-- Delete a key (Redis `DELETE key`). -/
def eraseAssoc {β : Type} : List (String × β) → String → List (String × β)
  | [], _ => []
  | (k, w) :: rest, key =>
      if k = key then eraseAssoc rest key else (k, w) :: eraseAssoc rest key

/-! ## Public job status (`app/models/job.py`, `app/api/jobs.py`) -/

/-- The public `JobStatus` enum from `app/models/job.py`: exactly the five
values `pending`, `running`, `success`, `failed`, `retrying` (there is no
cancelled member). -/
inductive JobStatus where
  | pending
  | running
  | success
  | failed
  | retrying
deriving DecidableEq, Repr

/-- The Celery-state-to-public-status mapping in
`get_job_status` (`app/api/jobs.py`): the `if/elif` chain over
`task.status`, ending in the `else: status = JobStatus.PENDING` arm. -/
def map_celery_status (celery_status : String) : JobStatus :=
  if celery_status = "PENDING" then JobStatus.pending
  else if celery_status ∈ (["STARTED", "PROGRESS"] : List String) then JobStatus.running
  else if celery_status = "SUCCESS" then JobStatus.success
  else if celery_status = "FAILURE" then JobStatus.failed
  else if celery_status = "RETRY" then JobStatus.retrying
  else JobStatus.pending

/-! ## Job records and their mutation
(`app/services/job_persistence.py`, `app/api/jobs.py`,
`app/tasks/download_task.py`) -/

/-- The columns of `JobRecord` touched by
`JobPersistenceService.update_job_status`. -/
structure JobRecord where
  status : String
  task_id : Option String
  error_message : Option String
  result_data : Option String
  started_at : Option Nat
  completed_at : Option Nat
deriving DecidableEq, Repr

/-- `JobPersistenceService.update_job_status`
(`app/services/job_persistence.py` lines 47-81): when the record exists
the requested status is assigned unconditionally, the optional fields are
assigned when given, `started_at` is stamped on a first `"running"`, and
`completed_at` on `"success"`/`"failed"`; returns whether a record was
found. -/
def update_job_status (rec : Option JobRecord) (now : Nat) (status : String)
    (task_id : Option String) (error_message : Option String)
    (result_data : Option String) : Option JobRecord × Bool :=
  match rec with
  | none => (none, false)
  | some r =>
      let r1 : JobRecord := { r with status := status }
      let r2 : JobRecord :=
        match task_id with
        | some t => { r1 with task_id := some t }
        | none => r1
      let r3 : JobRecord :=
        match error_message with
        | some e => { r2 with error_message := some e }
        | none => r2
      let r4 : JobRecord :=
        match result_data with
        | some d => { r3 with result_data := some d }
        | none => r3
      let r5 : JobRecord :=
        if status = "running" ∧ r4.started_at = none then
          { r4 with started_at := some now }
        else if status ∈ (["success", "failed"] : List String) then
          { r4 with completed_at := some now }
        else r4
      (some r5, true)

/-- The fields of the cached `job:<job_id>` dict touched by the operations
modelled here (`app/api/jobs.py`, `app/tasks/download_task.py`). -/
structure CacheJob where
  job_id : String
  status : String
  task_id : Option String
  started_at : Option Nat
  cancelled_at : Option Nat
  progress : Option Nat
  updated_at : Option Nat
deriving DecidableEq, Repr

/-- `cancel_job` (`app/api/jobs.py` lines 223-264): on a missing job the
result is `none` (HTTP 404); otherwise the task is revoked and the cached
record is overwritten with `status = "cancelled"` and `cancelled_at = now`,
and the handler answers `"cancelled"` — there is no check of the current
status. -/
def cancel_job (jobData : Option CacheJob) (now : Nat) :
    Option (CacheJob × String) :=
  match jobData with
  | none => none
  | some j =>
      some ({ j with status := "cancelled", cancelled_at := some now },
            "cancelled")

/-- One primitive effect performed by the `cancel_job` handler, in program
order. -/
inductive CancelAction where
  | lookupJob
  | revoke (taskId : String) (terminate : Bool)
  | setStatus (status : String)
  | waitGrace (seconds : Nat)
deriving DecidableEq, Repr

/-- The effect trace of `cancel_job` (`app/api/jobs.py` lines 223-264):
look the job up, then `celery_app.control.revoke(task_id, terminate=True)`
(task id defaulting to the job id), then write the cancelled record. No
grace-period wait appears anywhere in the handler. -/
def cancel_job_actions (jobData : Option CacheJob) : List CancelAction :=
  match jobData with
  | none => [CancelAction.lookupJob]
  | some j =>
      [CancelAction.lookupJob,
       CancelAction.revoke (j.task_id.getD j.job_id) true,
       CancelAction.setStatus "cancelled"]

/-- The `update_job_status` closure inside the `download_video` task
(`app/tasks/download_task.py` lines 35-65): merges the new status, task id
and (optional) progress into the existing cached dict (or an empty one),
stamps `updated_at`, and stamps `started_at` on a first `"running"` — with
no check of the current status. -/
def task_update_job_status (existing : Option CacheJob) (now : Nat)
    (status : String) (taskId : String) (progress : Option Nat) : CacheJob :=
  let base : CacheJob := existing.getD
    { job_id := "", status := "", task_id := none, started_at := none,
      cancelled_at := none, progress := none, updated_at := none }
  let j : CacheJob :=
    { base with
      status := status
      updated_at := some now
      task_id := some taskId
      progress := match progress with | some p => some p | none => base.progress }
  if status = "running" ∧ base.started_at = none then
    { j with started_at := some now }
  else j

/-! ## Failover migration (`app/services/failover_service.py`) -/

/-- The fields of the cached `job:<job_id>` dict touched by
`FailoverService._migrate_jobs_from_node`. -/
structure MigJob where
  status : String
  node_id : Option String
  migration_note : Option String
  url : String
deriving DecidableEq, Repr

/-- The slice of the Redis store the failover coordinator reads and
writes: `running_jobs:<node>` sets, `job:<id>` records,
`heartbeat:<node>` payloads, and the Celery queue the migrated jobs are
re-enqueued on (`download_video.apply_async`). -/
structure ClusterStore where
  running_jobs : List (String × List String)
  jobs : List (String × MigJob)
  heartbeats : List (String × String)
  queue : List String
deriving DecidableEq, Repr

/-- One iteration of the `for job_id in running_jobs` loop of
`_migrate_jobs_from_node` (`app/services/failover_service.py`
lines 132-160): if the job record exists, set `status = "pending"`,
`node_id = None`, write the migration annotation, store it back, and
re-enqueue the job. -/
def migrate_one (s : ClusterStore) (failedNode jobId : String) : ClusterStore :=
  match lookupA s.jobs jobId with
  | none => s
  | some j =>
      { s with
        jobs := setAssoc s.jobs jobId
          { j with
            status := "pending"
            node_id := none
            migration_note := some ("Migrated from failed node: " ++ failedNode) }
        queue := s.queue ++ [jobId] }

/-- The coordinator's read of `smembers(running_jobs:<node>)`
(`app/services/failover_service.py` lines 127-128). -/
def read_running_members (s : ClusterStore) (node : String) : List String :=
  (lookupA s.running_jobs node).getD []

/-- The rest of `_migrate_jobs_from_node` after the members were read:
migrate every member, then delete the `running_jobs:<node>` set
(lines 130-163). -/
def migrate_with_members (s : ClusterStore) (node : String)
    (members : List String) : ClusterStore :=
  let s1 := members.foldl (fun acc jid => migrate_one acc node jid) s
  { s1 with running_jobs := eraseAssoc s1.running_jobs node }

/-- `_migrate_jobs_from_node` run to completion in isolation. -/
def _migrate_jobs_from_node (s : ClusterStore) (node : String) : ClusterStore :=
  migrate_with_members s node (read_running_members s node)

/-- The body of the `for node_id in down_nodes` loop of
`_handle_node_failures` (`app/services/failover_service.py`
lines 110-121): first migrate the node's jobs, then delete its
`heartbeat:<node>` key — in that order, with no check of whether the
heartbeat key still existed. -/
def _handle_node_failure (s : ClusterStore) (node : String) : ClusterStore :=
  let s1 := _migrate_jobs_from_node s node
  { s1 with heartbeats := eraseAssoc s1.heartbeats node }

/-- `_handle_node_failures` over the detected down-node list. -/
def _handle_node_failures (s : ClusterStore) (downNodes : List String) : ClusterStore :=
  downNodes.foldl _handle_node_failure s

/-- A coordinator that has already performed its `smembers` read and then
executes the remainder of its cycle for a stale node: migrate each member,
delete the `running_jobs` set, delete the heartbeat key. Interleaving two
coordinators means the second one's read may happen before the first one's
writes. -/
def coordinator_act (s : ClusterStore) (node : String)
    (members : List String) : ClusterStore :=
  let s1 := migrate_with_members s node members
  { s1 with heartbeats := eraseAssoc s1.heartbeats node }

/-- A job record carries the failover migration marks for `node`:
pending, unowned, annotated. -/
def migratedFrom (node : String) (j : MigJob) : Prop :=
  j.status = "pending" ∧ j.node_id = none ∧
  j.migration_note = some ("Migrated from failed node: " ++ node)

/-! ## Admission at submission (`app/api/download.py`) -/

/-- The cached job dict written by the submission handlers (the fields
relevant to admission). -/
structure DLJob where
  url : String
  status : String
  premium : Bool
deriving DecidableEq, Repr

/-- The state the submission handlers read and write: the count of
currently executing Celery tasks (`inspect.active()`), the cached job
records, and the Celery queue. -/
structure ApiState where
  activeTasks : Nat
  jobs : List (String × DLJob)
  queue : List String
deriving DecidableEq, Repr

/-- Result of `create_download_job`. -/
inductive SubmitResult where
  | rejected (limit : Nat)
  | cachedResult
  | accepted (jobId : String)
deriving DecidableEq, Repr

/-- `create_download_job` (`app/api/download.py` lines 21-114): count the
active Celery tasks; if `running_jobs >= max_jobs` raise 429 before any
write; otherwise on a cache hit return the cached result without creating
a job; otherwise store a pending `job:<job_id>` record and enqueue the
task. -/
def create_download_job (s : ApiState) (maxJobs : Nat) (jobId url : String)
    (premium : Bool) (cachedHit : Bool) : ApiState × SubmitResult :=
  if maxJobs ≤ s.activeTasks then (s, SubmitResult.rejected maxJobs)
  else if cachedHit then (s, SubmitResult.cachedResult)
  else
    ({ s with
        jobs := setAssoc s.jobs jobId { url := url, status := "pending", premium := premium }
        queue := s.queue ++ [jobId] },
     SubmitResult.accepted jobId)

/-- `_create_single_job` (`app/api/download.py` lines 191-230): store a
pending record and enqueue the task — no admission check of any kind. -/
def _create_single_job (s : ApiState) (jobId url : String) (premium : Bool) : ApiState :=
  { s with
    jobs := setAssoc s.jobs jobId { url := url, status := "pending", premium := premium }
    queue := s.queue ++ [jobId] }

/-- `create_batch_download` (`app/api/download.py` lines 116-150): reject
non-premium callers (403) and more than 10 URLs (400); otherwise call
`_create_single_job` for every request. `none` as the second component
means no error was raised. -/
def create_batch_download (s : ApiState) (premium : Bool)
    (reqs : List (String × String)) : ApiState × Option Nat :=
  if premium = false then (s, some 403)
  else if 10 < reqs.length then (s, some 400)
  else
    (reqs.foldl (fun acc r => _create_single_job acc r.1 r.2 true) s, none)

/-- Number of cached job records whose status is not terminal. -/
def nonTerminalCount (s : ApiState) : Nat :=
  (s.jobs.filter
    (fun p => decide (p.2.status ∉ (["success", "failed", "cancelled"] : List String)))).length

/-! ## Retry backoff (`app/services/auto_recovery.py`,
`app/services/job_persistence.py`) -/

/-- The `countdown` passed to `apply_async` by
`AutoRecoverySystem._retry_failed_jobs` (`app/services/auto_recovery.py`
line 288): `60 * (job.retry_count + 1)` seconds. -/
def retryCountdown (retry_count : Nat) : Nat :=
  60 * (retry_count + 1)

/-- The selection filter of `JobPersistenceService.get_failed_jobs_for_retry`
(`app/services/job_persistence.py` lines 83-98): failed status, retry
count strictly below `max_retries`, created within the last 24 hours. -/
def retry_filter (status : String) (retry_count max_retries age_hours : Nat) : Bool :=
  decide (status = "failed") && decide (retry_count < max_retries) &&
    decide (age_hours < 24)

/-! ## Health-monitor store recovery (`app/services/auto_recovery.py`) -/

/-- `AutoRecoverySystem._recover_redis` (`app/services/auto_recovery.py`
lines 188-208): `flushdb()` — which deletes every key in the Redis
database — followed by a connection-pool disconnect (no further data
effect), reporting `"completed"`. -/
def _recover_redis (_store : List (String × String)) : List (String × String) × String :=
  ([], "completed")

/-- The trigger in `perform_health_checks` (`app/services/auto_recovery.py`
lines 36-42): `_recover_redis` runs whenever the Redis health status is
anything other than `"healthy"` — including a mere `"warning"`. -/
def redis_recovery_triggered (redisStatus : String) : Bool :=
  decide (redisStatus ≠ "healthy")

/-! ## Download strategy selection
(`app/services/download_accelerator.py`) -/

/-- The download methods `_determine_download_method` can return. -/
inductive DLMethod where
  | aria2
  | standard
  | parallel
  | segmented
deriving DecidableEq, Repr

/-- The inputs read from `video_info` by `_determine_download_method`:
`filesize`, `filesize_approx` (defaulting to 0), the `protocol` field of
each entry of `formats`, and `duration` (absent key modelled as `none`,
`null`-like zero kept as the number 0). -/
structure VideoInfo where
  filesize : Option Nat
  filesize_approx : Nat
  formats : List (Option String)
  duration : Option Nat
deriving DecidableEq, Repr

/-- The user-override flags read from `options`. -/
structure DLOptions where
  force_aria2 : Bool
  force_standard : Bool
  force_parallel : Bool
deriving DecidableEq, Repr

/-- The accelerator configuration and daemon-availability state consulted
by `_determine_download_method`: whether aria2 is enabled, the size
threshold (MB), whether `_get_aria2_service()` yields a service, and the
outcome of `check_aria2_status()` (`none` models the call raising, which
the `try/except` turns into falling through). -/
structure AcceleratorEnv where
  aria2_enabled : Bool
  aria2_threshold_mb : Nat
  aria2_service_available : Bool
  aria2_status_ok : Option Bool
deriving DecidableEq, Repr

/-- HLS-like protocols recognised by the format loop. -/
def hlsProtocols : List String := ["m3u8", "hls", "m3u8_native"]

/-- DASH-like protocols recognised by the format loop. -/
def dashProtocols : List String := ["http_dash_segments"]

/-- The `for fmt in formats` loop of `_determine_download_method`
(`app/services/download_accelerator.py` lines 228-239): for each format,
an HLS protocol returns `segmented` and a DASH protocol returns
`parallel`; otherwise continue. -/
def formatScan : List (Option String) → Option DLMethod
  | [] => none
  | proto :: rest =>
      match proto with
      | some p =>
          if p ∈ hlsProtocols then some DLMethod.segmented
          else if p ∈ dashProtocols then some DLMethod.parallel
          else formatScan rest
      | none => formatScan rest

/-- `_determine_download_method` (`app/services/download_accelerator.py`
lines 186-252): user overrides first (`force_aria2` only when aria2 is
enabled), then `standard` whenever aria2 is disabled, then the file-size
branch (aria2 when the daemon answers healthy, `parallel` when it answers
unhealthy, fall through when the probe raises or no service exists), then
the format scan, then the 30-minute duration rule, then `standard`. -/
def _determine_download_method (env : AcceleratorEnv) (vi : VideoInfo)
    (opts : DLOptions) : DLMethod :=
  if opts.force_aria2 && env.aria2_enabled then DLMethod.aria2
  else if opts.force_standard then DLMethod.standard
  else if opts.force_parallel then DLMethod.parallel
  else if !env.aria2_enabled then DLMethod.standard
  else
    let filesize : Nat :=
      match vi.filesize with
      | some n => if n ≠ 0 then n else vi.filesize_approx
      | none => vi.filesize_approx
    let sizeBranch : Option DLMethod :=
      if filesize ≠ 0 ∧ env.aria2_threshold_mb * 1024 * 1024 < filesize then
        if env.aria2_service_available then
          match env.aria2_status_ok with
          | some true => some DLMethod.aria2
          | some false => some DLMethod.parallel
          | none => none
        else none
      else none
    match sizeBranch with
    | some m => m
    | none =>
        match formatScan vi.formats with
        | some m => m
        | none =>
            match vi.duration with
            | some d => if d ≠ 0 ∧ 1800 < d then DLMethod.parallel else DLMethod.standard
            | none => DLMethod.standard

/-! ## Cluster status query (`app/services/failover_service.py`) -/

/-- The two shapes `FailoverService.get_cluster_status` can answer with. -/
inductive ClusterStatusReply where
  | snapshot (data : String)
  | errorReply (msg : String) (timestamp : Nat)
deriving DecidableEq, Repr

/-- `get_cluster_status` (`app/services/failover_service.py`
lines 210-225): return the stored `cluster:status` value when present,
otherwise a dict carrying `error = "Cluster status not available"` and a
timestamp. -/
def get_cluster_status (stored : Option String) (now : Nat) : ClusterStatusReply :=
  match stored with
  | some s => ClusterStatusReply.snapshot s
  | none => ClusterStatusReply.errorReply "Cluster status not available" now

/-! ## Association-list facts used by the proofs -/

theorem lookupA_setAssoc_self {β : Type} (l : List (String × β)) (k : String) (v : β) :
    lookupA (setAssoc l k v) k = some v := by
  induction l with
  | nil => simp [setAssoc, lookupA]
  | cons hd tl ih =>
      obtain ⟨k', w⟩ := hd
      by_cases h : k' = k <;> simp [setAssoc, lookupA, h, ih]

theorem lookupA_setAssoc_ne {β : Type} (l : List (String × β)) (k key : String) (v : β)
    (h : key ≠ k) : lookupA (setAssoc l k v) key = lookupA l key := by
  induction l with
  | nil => simp [setAssoc, lookupA, Ne.symm h]
  | cons hd tl ih =>
      obtain ⟨k', w⟩ := hd
      by_cases h1 : k' = k
      · subst h1
        simp [setAssoc, lookupA, Ne.symm h]
      · simp [setAssoc, lookupA, h1, ih]

theorem lookupA_eraseAssoc_self {β : Type} (l : List (String × β)) (k : String) :
    lookupA (eraseAssoc l k) k = none := by
  induction l with
  | nil => simp [eraseAssoc, lookupA]
  | cons hd tl ih =>
      obtain ⟨k', w⟩ := hd
      by_cases h : k' = k <;> simp [eraseAssoc, lookupA, h, ih]


/-! ## C10 — the public status vocabulary -/

/-- C10: the public status type has exactly the five members `pending`,
`running`, `success`, `failed`, `retrying` (no cancelled value), and the
Celery-state mapping of `get_job_status` sends every state outside the six
recognised ones — `"REVOKED"`, the state of a revoked/cancelled task,
included — to `pending`. -/
theorem unknown_celery_state_maps_to_pending (s : String)
    (h : s ∉ (["PENDING", "STARTED", "PROGRESS", "SUCCESS", "FAILURE", "RETRY"] : List String)) :
    map_celery_status s = JobStatus.pending ∧
    map_celery_status "REVOKED" = JobStatus.pending ∧
    ∀ st : JobStatus,
      st ∈ [JobStatus.pending, JobStatus.running, JobStatus.success,
            JobStatus.failed, JobStatus.retrying] := by
  simp only [List.mem_cons, List.not_mem_nil, or_false, not_or] at h
  obtain ⟨h1, h2, h3, h4, h5, h6⟩ := h
  refine ⟨?_, by decide, ?_⟩
  · simp [map_celery_status, h1, h2, h3, h4, h5, h6]
  · intro st
    cases st <;> simp

/-- C10 witness: the mapping at the concrete unrecognised state
`"REVOKED"`. -/
theorem unknown_celery_state_maps_to_pending_witness :
    map_celery_status "REVOKED" = JobStatus.pending ∧
    map_celery_status "REVOKED" = JobStatus.pending ∧
    ∀ st : JobStatus,
      st ∈ [JobStatus.pending, JobStatus.running, JobStatus.success,
            JobStatus.failed, JobStatus.retrying] :=
  unknown_celery_state_maps_to_pending "REVOKED" (by decide)

/-! ## C1 — terminal states are not immutable -/

/-- C1 counterexample: at concrete inputs, a job whose status already
reached a terminal state is changed by later operations. A `"success"`
database record is moved back to `"running"` by `update_job_status`;
cancelling the `"success"` cached job rewrites its record (so the cancel
is not a no-op); and a late task-side update moves a `"cancelled"` cached
job back to `"running"`. -/
theorem terminal_job_mutated_counterexample :
    (update_job_status
        (some { status := "success", task_id := some "t1", error_message := none,
                result_data := some "r", started_at := some 1, completed_at := some 2 })
        9 "running" none none none).1 =
      some { status := "running", task_id := some "t1", error_message := none,
             result_data := some "r", started_at := some 1, completed_at := some 2 } ∧
    cancel_job
        (some { job_id := "j1", status := "success", task_id := some "t1",
                started_at := some 1, cancelled_at := none, progress := some 100,
                updated_at := some 2 }) 5 =
      some ({ job_id := "j1", status := "cancelled", task_id := some "t1",
              started_at := some 1, cancelled_at := some 5, progress := some 100,
              updated_at := some 2 }, "cancelled") ∧
    (task_update_job_status
        (some { job_id := "j1", status := "cancelled", task_id := some "t1",
                started_at := some 1, cancelled_at := some 5, progress := some 100,
                updated_at := some 2 }) 7 "running" "t1" (some 10)).status =
      "running" := by
  exact ⟨by decide, by decide, by decide⟩

/-- C1 (amended): no operation guards terminal states. For every existing
record, `update_job_status` installs the requested status unconditionally;
`cancel_job` overwrites any existing cached job with `"cancelled"` and
reports success regardless of its current status; and the task-side cache
update installs its status unconditionally as well. -/
theorem no_terminal_guard_on_job_mutation :
    (∀ (r : JobRecord) (now : Nat) (st : String)
        (tid em rd : Option String),
        ((update_job_status (some r) now st tid em rd).1).map JobRecord.status = some st ∧
        (update_job_status (some r) now st tid em rd).2 = true) ∧
    (∀ (j : CacheJob) (now : Nat),
        cancel_job (some j) now =
          some ({ j with status := "cancelled", cancelled_at := some now }, "cancelled")) ∧
    (∀ (e : Option CacheJob) (now : Nat) (st tId : String) (p : Option Nat),
        (task_update_job_status e now st tId p).status = st) := by
  refine ⟨?_, ?_, ?_⟩
  · intro r now st tid em rd
    cases tid <;> cases em <;> cases rd <;>
      · simp only [update_job_status]
        split_ifs <;> simp
  · intro j now
    rfl
  · intro e now st tId p
    simp only [task_update_job_status]
    split_ifs <;> rfl

/-! ## C4 — the retry backoff is linear, not exponential -/

/-- C4: the code schedules a retried job with
`countdown = 60 * (retry_count + 1)` seconds — a linear backoff with no
cap and no jitter, despite the adjacent comment announcing exponential
backoff. The first values are 60, 120, 180, 240; a retry count of 3 is
reachable (the selection filter admits it whenever `max_retries ≥ 4`), and
no capped exponential schedule `min (base * 2 ^ retry_count) cap` agrees
with the code on retry counts 0–3. The selection filter does keep
`retry_count` from exceeding `max_retries`: it only picks jobs with
`retry_count < max_retries`, which the retry then increments by one. -/
theorem retry_backoff_is_linear :
    retryCountdown 0 = 60 ∧ retryCountdown 1 = 120 ∧
    retryCountdown 2 = 180 ∧ retryCountdown 3 = 240 ∧
    retry_filter "failed" 3 4 0 = true ∧
    (∀ (rc mr age : Nat), retry_filter "failed" rc mr age = true → rc + 1 ≤ mr) ∧
    ¬ ∃ base cap : Nat, ∀ rc : Nat, rc ≤ 3 →
        min (base * 2 ^ rc) cap = retryCountdown rc := by
  refine ⟨rfl, rfl, rfl, rfl, by decide, ?_, ?_⟩
  · intro rc mr age h
    simp only [retry_filter, Bool.and_eq_true, decide_eq_true_eq] at h
    omega
  · rintro ⟨b, c, h⟩
    have h0 := h 0 (by norm_num)
    have h1 := h 1 (by norm_num)
    have h2 := h 2 (by norm_num)
    have h3 := h 3 (by norm_num)
    norm_num [retryCountdown] at h0 h1 h2 h3
    omega

/-! ## C5 — the store "recovery" is destructive -/

/-- C5 counterexample: at a concrete store holding a job record and a
heartbeat, running the Redis corrective action leaves an empty database —
the job record is gone afterwards, not unchanged. -/
theorem recover_redis_destroys_records_counterexample :
    lookupA [("job:j1", "payload"), ("heartbeat:n1", "hb")] "job:j1" = some "payload" ∧
    (_recover_redis [("job:j1", "payload"), ("heartbeat:n1", "hb")]).1 = [] ∧
    lookupA (_recover_redis [("job:j1", "payload"), ("heartbeat:n1", "hb")]).1 "job:j1" =
      none := by
  exact ⟨rfl, rfl, rfl⟩

/-- C5 (amended): the corrective action for a degraded store calls
`flushdb()` before resetting the connection pool, so afterwards the store
database holds no record at all — every previously stored key (job
records, heartbeats and all others) is deleted, and the action still
reports `"completed"`. It is triggered by any non-`"healthy"` store
status, including a mere `"warning"`. -/
theorem recover_redis_flushes_store (store : List (String × String)) :
    (_recover_redis store).1 = [] ∧ (_recover_redis store).2 = "completed" ∧
    redis_recovery_triggered "warning" = true := by
  exact ⟨rfl, rfl, by decide⟩

/-! ## C6 — cancellation is forced immediately, with no grace period -/

/-- C6 counterexample: cancelling a concrete RUNNING job issues
`revoke(task_id, terminate=True)` — a forced termination — as the very
next effect after the lookup, with no grace-period wait anywhere in the
trace, before the record is marked cancelled. -/
theorem cancel_force_terminates_immediately_counterexample :
    cancel_job_actions
        (some { job_id := "j1", status := "running", task_id := some "t1",
                started_at := some 1, cancelled_at := none, progress := some 50,
                updated_at := some 1 }) =
      [CancelAction.lookupJob, CancelAction.revoke "t1" true,
       CancelAction.setStatus "cancelled"] := by
  decide

/-- C6 (amended): `cancel_job` performs no cooperative phase at all: for
every existing job it immediately revokes the Celery task with
`terminate=True` (forced termination, no grace period, no wait), then
marks the record `"cancelled"` — so the job does end cancelled rather than
failed, but the forced termination happens at once rather than after a
grace period. -/
theorem cancel_two_phase_absent (j : CacheJob) (now : Nat) :
    cancel_job_actions (some j) =
      [CancelAction.lookupJob,
       CancelAction.revoke (j.task_id.getD j.job_id) true,
       CancelAction.setStatus "cancelled"] ∧
    (cancel_job (some j) now).map (fun p => p.1.status) = some "cancelled" := by
  exact ⟨rfl, rfl⟩

/-! ## C9 — cold-start cluster status is an error reply -/

/-- C9 counterexample: with no aggregated snapshot stored,
`get_cluster_status` answers the concrete error reply
`{"error": "Cluster status not available", ...}` — not a synthesized
single-node-healthy status. -/
theorem cold_start_cluster_status_is_error_counterexample :
    get_cluster_status none 7 =
      ClusterStatusReply.errorReply "Cluster status not available" 7 := by
  rfl

/-- C9 (amended): `get_cluster_status` returns the stored snapshot when
one exists, and when none exists it returns an error reply carrying
`"Cluster status not available"` — which is never equal to any snapshot
reply. -/
theorem cluster_status_cold_start_errors (now : Nat) (s : String) :
    get_cluster_status none now =
      ClusterStatusReply.errorReply "Cluster status not available" now ∧
    get_cluster_status (some s) now = ClusterStatusReply.snapshot s ∧
    ∀ d : String,
      ClusterStatusReply.errorReply "Cluster status not available" now ≠
        ClusterStatusReply.snapshot d := by
  refine ⟨rfl, rfl, ?_⟩
  intro d h
  exact ClusterStatusReply.noConfusion h

/-! ## C3 — admission: single path gates, batch path does not -/

/-- C3 counterexample: with the normal tier ceiling of 3 and three
non-terminal jobs already present (and three executing tasks), the single
submission path rejects a fourth job, but a premium batch submission at
the very same state creates its job with no admission check at all,
raising the non-terminal job count to 4 — above the ceiling — with a job
record created and the task enqueued. -/
theorem batch_bypasses_admission_counterexample :
    nonTerminalCount
        { activeTasks := 3
          jobs := [("j1", { url := "u1", status := "running", premium := false }),
                   ("j2", { url := "u2", status := "running", premium := false }),
                   ("j3", { url := "u3", status := "running", premium := false })]
          queue := [] } = 3 ∧
    create_download_job
        { activeTasks := 3
          jobs := [("j1", { url := "u1", status := "running", premium := false }),
                   ("j2", { url := "u2", status := "running", premium := false }),
                   ("j3", { url := "u3", status := "running", premium := false })]
          queue := [] } 3 "j4" "u4" false false =
      ({ activeTasks := 3
         jobs := [("j1", { url := "u1", status := "running", premium := false }),
                  ("j2", { url := "u2", status := "running", premium := false }),
                  ("j3", { url := "u3", status := "running", premium := false })]
         queue := [] }, SubmitResult.rejected 3) ∧
    (create_batch_download
        { activeTasks := 3
          jobs := [("j1", { url := "u1", status := "running", premium := false }),
                   ("j2", { url := "u2", status := "running", premium := false }),
                   ("j3", { url := "u3", status := "running", premium := false })]
          queue := [] } true [("j4", "u4")]).2 = none ∧
    nonTerminalCount
      (create_batch_download
          { activeTasks := 3
            jobs := [("j1", { url := "u1", status := "running", premium := false }),
                     ("j2", { url := "u2", status := "running", premium := false }),
                     ("j3", { url := "u3", status := "running", premium := false })]
            queue := [] } true [("j4", "u4")]).1 = 4 := by
  refine ⟨by decide, by decide, by decide, by decide⟩

/-- C3 (amended): the single-job submission path is a pure gate — when the
executing-task count has reached the tier ceiling it answers
`AdmissionRejected` (HTTP 429) and performs no write whatsoever (no job
record, nothing enqueued: the state is returned untouched). The batch
path, however, performs no admission check, so the ceiling can be
exceeded by premium batch submissions. -/
theorem admission_reject_no_side_effects (s : ApiState) (maxJobs : Nat)
    (jobId url : String) (premium cachedHit : Bool)
    (h : maxJobs ≤ s.activeTasks) :
    create_download_job s maxJobs jobId url premium cachedHit =
      (s, SubmitResult.rejected maxJobs) := by
  simp [create_download_job, h]

/-- C3 witness: the rejection at a concrete full state. -/
theorem admission_reject_no_side_effects_witness :
    create_download_job { activeTasks := 3, jobs := [], queue := [] } 3 "j9" "u9"
        false false =
      ({ activeTasks := 3, jobs := [], queue := [] }, SubmitResult.rejected 3) :=
  admission_reject_no_side_effects
    { activeTasks := 3, jobs := [], queue := [] } 3 "j9" "u9" false false (by decide)

/-! ## C7 — selector behaviour when the daemon is disabled or unreachable -/

/-- C7 counterexample: with no user override, the daemon enabled but
unreachable (the status probe answers unhealthy), and a 100 MB file over
the 50 MB threshold, the selector returns `parallel` — an accelerated
multi-connection method — not `standard`. -/
theorem unreachable_daemon_selects_parallel_counterexample :
    _determine_download_method
        { aria2_enabled := true, aria2_threshold_mb := 50,
          aria2_service_available := true, aria2_status_ok := some false }
        { filesize := some (100 * 1024 * 1024), filesize_approx := 0,
          formats := [], duration := none }
        { force_aria2 := false, force_standard := false, force_parallel := false } =
      DLMethod.parallel := by
  decide

/-- C7 (amended): only the *disabled* half of the claim holds: whenever
the accelerated-download daemon is disabled (and the user did not force
the parallel method) the selector returns `standard`, for every job
metadata. When the daemon is enabled but unreachable, the selector can
still return `parallel` (or `segmented`), as the counterexample shows. -/
theorem disabled_daemon_selects_standard (env : AcceleratorEnv) (vi : VideoInfo)
    (opts : DLOptions) (hd : env.aria2_enabled = false)
    (hp : opts.force_parallel = false) :
    _determine_download_method env vi opts = DLMethod.standard := by
  cases hs : opts.force_standard <;>
    simp [_determine_download_method, hd, hp, hs]

/-- C7 witness: the disabled-daemon selection at concrete inputs. -/
theorem disabled_daemon_selects_standard_witness :
    _determine_download_method
        { aria2_enabled := false, aria2_threshold_mb := 50,
          aria2_service_available := false, aria2_status_ok := none }
        { filesize := some (100 * 1024 * 1024), filesize_approx := 0,
          formats := [some "m3u8"], duration := some 4000 }
        { force_aria2 := false, force_standard := false, force_parallel := false } =
      DLMethod.standard :=
  disabled_daemon_selects_standard _ _ _ (by decide) (by decide)

/-! ## C8 — the selector is a deterministic, total decision function -/

/-- C8: the strategy selection is a deterministic and total function of
the job metadata, the user hints and the daemon-availability state:
identical inputs yield the identical method, and the result is always one
of the four methods (the priority chain bottoms out at `standard`, it
never falls through without a result). -/
theorem determine_method_deterministic_and_total
    (e₁ : AcceleratorEnv) (v₁ : VideoInfo) (o₁ : DLOptions)
    (e₂ : AcceleratorEnv) (v₂ : VideoInfo) (o₂ : DLOptions)
    (h : (e₁, v₁, o₁) = (e₂, v₂, o₂)) :
    _determine_download_method e₁ v₁ o₁ = _determine_download_method e₂ v₂ o₂ ∧
    _determine_download_method e₁ v₁ o₁ ∈
      [DLMethod.aria2, DLMethod.standard, DLMethod.parallel, DLMethod.segmented] := by
  simp only [Prod.mk.injEq] at h
  obtain ⟨he, hv, ho⟩ := h
  subst he
  subst hv
  subst ho
  refine ⟨rfl, ?_⟩
  cases _determine_download_method e₁ v₁ o₁ <;> simp

/-- C8 witness: determinism and totality at a concrete repeated input. -/
theorem determine_method_deterministic_and_total_witness :
    _determine_download_method
        { aria2_enabled := true, aria2_threshold_mb := 50,
          aria2_service_available := true, aria2_status_ok := some true }
        { filesize := some 1000, filesize_approx := 0, formats := [],
          duration := none }
        { force_aria2 := false, force_standard := false, force_parallel := false } =
      _determine_download_method
        { aria2_enabled := true, aria2_threshold_mb := 50,
          aria2_service_available := true, aria2_status_ok := some true }
        { filesize := some 1000, filesize_approx := 0, formats := [],
          duration := none }
        { force_aria2 := false, force_standard := false, force_parallel := false } ∧
    _determine_download_method
        { aria2_enabled := true, aria2_threshold_mb := 50,
          aria2_service_available := true, aria2_status_ok := some true }
        { filesize := some 1000, filesize_approx := 0, formats := [],
          duration := none }
        { force_aria2 := false, force_standard := false, force_parallel := false } ∈
      [DLMethod.aria2, DLMethod.standard, DLMethod.parallel, DLMethod.segmented] :=
  determine_method_deterministic_and_total _ _ _ _ _ _ rfl

/-! ## C2 — failover migration: correct in one cycle, but not
race-protected -/

theorem migrate_one_heartbeats (s : ClusterStore) (node m : String) :
    (migrate_one s node m).heartbeats = s.heartbeats := by
  unfold migrate_one
  cases lookupA s.jobs m <;> rfl

theorem foldl_migrate_heartbeats (node : String) :
    ∀ (members : List String) (s : ClusterStore),
      (members.foldl (fun acc m => migrate_one acc node m) s).heartbeats =
        s.heartbeats := by
  intro members
  induction members with
  | nil => intro s; rfl
  | cons m rest ih =>
      intro s
      rw [List.foldl_cons, ih, migrate_one_heartbeats]

theorem migrate_one_preserves_isSome (s : ClusterStore) (node m jid : String)
    (h : (lookupA s.jobs jid).isSome = true) :
    (lookupA (migrate_one s node m).jobs jid).isSome = true := by
  unfold migrate_one
  cases hm : lookupA s.jobs m with
  | none => exact h
  | some j =>
      by_cases hj : jid = m
      · subst hj
        simp [lookupA_setAssoc_self]
      · simpa [lookupA_setAssoc_ne s.jobs m jid _ hj] using h

theorem migrate_one_queue_mem (s : ClusterStore) (node m jid : String)
    (h : jid ∈ s.queue) : jid ∈ (migrate_one s node m).queue := by
  unfold migrate_one
  cases hm : lookupA s.jobs m with
  | none => exact h
  | some j => exact List.mem_append_left _ h

theorem migrate_one_preserves_good (s : ClusterStore) (node m jid : String)
    (h : (∃ j, lookupA s.jobs jid = some j ∧ migratedFrom node j) ∧ jid ∈ s.queue) :
    (∃ j, lookupA (migrate_one s node m).jobs jid = some j ∧ migratedFrom node j) ∧
      jid ∈ (migrate_one s node m).queue := by
  obtain ⟨⟨j, hj, hmig⟩, hq⟩ := h
  refine ⟨?_, migrate_one_queue_mem s node m jid hq⟩
  unfold migrate_one
  cases hm : lookupA s.jobs m with
  | none => exact ⟨j, hj, hmig⟩
  | some w =>
      by_cases hjm : jid = m
      · subst hjm
        exact ⟨_, by simpa using lookupA_setAssoc_self s.jobs jid _, rfl, rfl, rfl⟩
      · exact ⟨j, by simpa [lookupA_setAssoc_ne s.jobs m jid _ hjm] using hj, hmig⟩

theorem migrate_one_establishes_good (s : ClusterStore) (node jid : String)
    (h : (lookupA s.jobs jid).isSome = true) :
    (∃ j, lookupA (migrate_one s node jid).jobs jid = some j ∧ migratedFrom node j) ∧
      jid ∈ (migrate_one s node jid).queue := by
  unfold migrate_one
  cases hm : lookupA s.jobs jid with
  | none => simp [hm] at h
  | some w =>
      constructor
      · exact ⟨_, by simpa using lookupA_setAssoc_self s.jobs jid _, rfl, rfl, rfl⟩
      · exact List.mem_append_right _ (List.mem_singleton.mpr rfl)

theorem foldl_migrate_good (node jid : String) :
    ∀ (members : List String) (s : ClusterStore),
      ((jid ∈ members ∧ (lookupA s.jobs jid).isSome = true) ∨
        ((∃ j, lookupA s.jobs jid = some j ∧ migratedFrom node j) ∧ jid ∈ s.queue)) →
      (∃ j, lookupA ((members.foldl (fun acc m => migrate_one acc node m) s)).jobs jid
            = some j ∧ migratedFrom node j) ∧
        jid ∈ (members.foldl (fun acc m => migrate_one acc node m) s).queue := by
  intro members
  induction members with
  | nil =>
      intro s h
      rcases h with ⟨hmem, _⟩ | hgood
      · exact absurd hmem (List.not_mem_nil jid)
      · exact hgood
  | cons m rest ih =>
      intro s h
      rw [List.foldl_cons]
      rcases h with ⟨hmem, hsome⟩ | hgood
      · rcases List.mem_cons.mp hmem with hm | hm
        · subst hm
          exact ih _ (Or.inr (migrate_one_establishes_good s node jid hsome))
        · exact ih _ (Or.inl ⟨hm, migrate_one_preserves_isSome s node m jid hsome⟩)
      · exact ih _ (Or.inr (migrate_one_preserves_good s node m jid hgood))

/-- C2 counterexample: migration is not exactly-once under racing
coordinators. The code migrates first and deletes the stale node's
heartbeat key only afterwards, never checking whether the key was already
gone, so when a second coordinator reads the `running_jobs` set before the
first one's deletions, both migrate and the job is re-enqueued twice — at
the concrete store below the queue ends as `["j1", "j1"]`, while a single
coordinator cycle enqueues it once. -/
theorem double_migration_counterexample :
    (coordinator_act
        (coordinator_act
          { running_jobs := [("n2", ["j1"])]
            jobs := [("j1", { status := "running", node_id := some "n2",
                              migration_note := none, url := "u" })]
            heartbeats := [("n2", "hb")]
            queue := [] }
          "n2"
          (read_running_members
            { running_jobs := [("n2", ["j1"])]
              jobs := [("j1", { status := "running", node_id := some "n2",
                                migration_note := none, url := "u" })]
              heartbeats := [("n2", "hb")]
              queue := [] } "n2"))
        "n2"
        (read_running_members
          { running_jobs := [("n2", ["j1"])]
            jobs := [("j1", { status := "running", node_id := some "n2",
                              migration_note := none, url := "u" })]
            heartbeats := [("n2", "hb")]
            queue := [] } "n2")).queue = ["j1", "j1"] ∧
    (_handle_node_failures
        { running_jobs := [("n2", ["j1"])]
          jobs := [("j1", { status := "running", node_id := some "n2",
                            migration_note := none, url := "u" })]
          heartbeats := [("n2", "hb")]
          queue := [] } ["n2"]).queue = ["j1"] := by
  exact ⟨by decide, by decide⟩

/-- C2 (amended): within one coordinator cycle every job listed in a stale
node's `running_jobs` set whose record exists is moved to `"pending"` with
its owner cleared and a migration annotation written, is re-enqueued for
dispatch, and the stale node's heartbeat key is deleted — but the code
deletes the heartbeat key *after* migrating, without any atomic
delete-then-migrate guard, so the exactly-once-under-racing-coordinators
part of the claim fails (see the counterexample). -/
theorem failover_migrates_within_one_cycle (s : ClusterStore) (node jid : String)
    (hmem : jid ∈ read_running_members s node)
    (hjob : (lookupA s.jobs jid).isSome = true) :
    (∃ j, lookupA (_handle_node_failure s node).jobs jid = some j ∧
        migratedFrom node j) ∧
    jid ∈ (_handle_node_failure s node).queue ∧
    lookupA (_handle_node_failure s node).heartbeats node = none := by
  have hgood := foldl_migrate_good node jid (read_running_members s node) s
    (Or.inl ⟨hmem, hjob⟩)
  exact ⟨hgood.1, hgood.2, lookupA_eraseAssoc_self _ node⟩

/-- C2 witness: the migration effect at a concrete one-node, one-job
store. -/
theorem failover_migrates_within_one_cycle_witness :
    (∃ j, lookupA (_handle_node_failure
        { running_jobs := [("n2", ["j1"])]
          jobs := [("j1", { status := "running", node_id := some "n2",
                            migration_note := none, url := "u" })]
          heartbeats := [("n2", "hb")]
          queue := [] } "n2").jobs "j1" = some j ∧ migratedFrom "n2" j) ∧
    "j1" ∈ (_handle_node_failure
        { running_jobs := [("n2", ["j1"])]
          jobs := [("j1", { status := "running", node_id := some "n2",
                            migration_note := none, url := "u" })]
          heartbeats := [("n2", "hb")]
          queue := [] } "n2").queue ∧
    lookupA (_handle_node_failure
        { running_jobs := [("n2", ["j1"])]
          jobs := [("j1", { status := "running", node_id := some "n2",
                            migration_note := none, url := "u" })]
          heartbeats := [("n2", "hb")]
          queue := [] } "n2").heartbeats "n2" = none :=
  failover_migrates_within_one_cycle _ "n2" "j1" (by decide) (by decide)
